import Mathlib

/-!
Verification of the Little Lemon API serializer layer
(`LittleLemon/LittleLemonAPI/serializers.py`).

The Python source is shallowly embedded: prices are exact decimals
represented as a natural-number coefficient with a base-ten exponent
(`Dec`), the persisted store is a list of records, and fallible
validation returns `Except`.  Each definition is transcribed from the
corresponding serializer method; framework behaviour of Django REST
Framework (field filtering by `Meta.fields`, `write_only` exclusion
from output, `extra_kwargs` keyed by field name) is embedded
generically where the claims depend on it.
-/

deriving instance DecidableEq for Except

namespace LittleLemon

/-! ## Exact decimal arithmetic (Python `decimal.Decimal`)

Values appearing in `get_price_after_tax` are non-negative (the price
field enforces `min_value=2`), so coefficients are natural numbers.
The default `decimal` context rounding used by `quantize` is
`ROUND_HALF_EVEN`. -/

/-- An exact decimal value `coeff / 10 ^ exp`. -/
structure Dec where
  coeff : Nat
  exp : Nat
deriving DecidableEq

/-- `Decimal` multiplication: multiply coefficients, add exponents. -/
def Dec.mul (a b : Dec) : Dec :=
  ⟨a.coeff * b.coeff, a.exp + b.exp⟩

/-- `Decimal` addition: align to the larger exponent, add coefficients. -/
def Dec.add (a b : Dec) : Dec :=
  let e := max a.exp b.exp
  ⟨a.coeff * 10 ^ (e - a.exp) + b.coeff * 10 ^ (e - b.exp), e⟩

/-- Round `a / b` to the nearest natural number, ties to even
(`ROUND_HALF_EVEN`, the default `decimal` context rounding). -/
def roundHalfEven (a b : Nat) : Nat :=
  if 2 * (a % b) < b then a / b
  else if b < 2 * (a % b) then a / b + 1
  else if a / b % 2 = 0 then a / b else a / b + 1

/-- `Decimal.quantize(Decimal('0.01'))` under the default context:
rescale to two fractional digits, rounding half-to-even when digits
are dropped. -/
def Dec.quantize2 (a : Dec) : Dec :=
  if a.exp ≤ 2 then ⟨a.coeff * 10 ^ (2 - a.exp), 2⟩
  else ⟨roundHalfEven a.coeff (10 ^ (a.exp - 2)), 2⟩

/-- Round `a / b` to the nearest natural number, ties upward
(round-half-up, the rounding mode named by the specification). -/
def roundHalfUp (a b : Nat) : Nat :=
  (a + b / 2) / b

/-- Django's `name__iexact` case-insensitive match: compare the
lower-cased character sequences. -/
def iexact (a b : String) : Bool :=
  a.data.map Char.toLower == b.data.map Char.toLower

/-! ## MenuItemSerializer -/

namespace MenuItemSerializer

/-- `MenuItemSerializer.get_price_after_tax`:
`(obj.price + (obj.price * Decimal('0.10'))).quantize(Decimal('0.01'))`.
`Decimal('0.10')` is the coefficient `10` at exponent `2`. -/
def get_price_after_tax (price : Dec) : Dec :=
  (price.add (price.mul ⟨10, 2⟩)).quantize2

/-- `MenuItemSerializer.validate_dish`: reject the candidate name when
another record matches case-insensitively, excluding the instance
being updated.  The store is a list of `(pk, name)` rows;
`name__iexact` is embedded as comparison of lower-cased names. -/
def validate_dish (store : List (Nat × String)) (inst : Option Nat)
    (value : String) : Except String String :=
  let qs := store.filter (fun r => iexact r.2 value)
  let qs := match inst with
    | some pk => qs.filter (fun (r : Nat × String) => r.1 != pk)
    | none => qs
  if !qs.isEmpty then Except.error "Ya existe un plato con ese nombre."
  else Except.ok value

end MenuItemSerializer

namespace SingleItemSerializer

/-- `SingleItemSerializer.validate_dish`, transcribed from its own
class body (textually identical logic to the `MenuItemSerializer`
version). -/
def validate_dish (store : List (Nat × String)) (inst : Option Nat)
    (value : String) : Except String String :=
  let qs := store.filter (fun r => iexact r.2 value)
  let qs := match inst with
    | some pk => qs.filter (fun (r : Nat × String) => r.1 != pk)
    | none => qs
  if !qs.isEmpty then Except.error "Ya existe un plato con ese nombre."
  else Except.ok value

end SingleItemSerializer

/-! ## RatingSerializer -/

/-- A persisted `Rating` row. -/
structure Rating where
  user : Nat
  menu_item : Nat
  score : Int
  comment : String
deriving DecidableEq

namespace RatingSerializer

/-- `RatingSerializer.Meta.fields`. -/
def fields : List String :=
  ["id", "menu_item", "score", "comment", "user"]

/-- `RatingSerializer.Meta.extra_kwargs`: one entry keyed by field
name, carrying `(min_value, max_value)`. -/
def extra_kwargs : List (String × Int × Int) :=
  [("rating", 0, 5)]

/-- Range constraints DRF applies to a serializer field: the
`extra_kwargs` entry for that field name, if any.  Entries whose key
is not a declared field are silently ignored by the framework. -/
def fieldRange (f : String) : Option (Int × Int) :=
  (extra_kwargs.find? (fun kv => kv.1 == f && fields.contains kv.1)).map
    (fun kv => kv.2)

/-- Validation of a submitted score against the range constraints the
serializer declares for the field named `score`. -/
def validate_score (s : Int) : Bool :=
  match fieldRange "score" with
  | some (lo, hi) => decide (lo ≤ s ∧ s ≤ hi)
  | none => true

/-- `UniqueTogetherValidator(queryset=Rating.objects.all(),
fields=['user', 'menu_item'])`: reject a submission whose
`(user, menu_item)` pair already occurs in the store. -/
def unique_together (store : List Rating) (u m : Nat) :
    Except String Unit :=
  if store.any (fun r => r.user == u && r.menu_item == m) then
    Except.error "You have already rated this menu item."
  else Except.ok ()

end RatingSerializer

/-! ## CartItemSerializer -/

/-- A persisted `CartItem` row.  Prices are cent amounts. -/
structure CartItem where
  user : Nat
  menu_item : Nat
  quantity : Nat
  unit_price : Nat
deriving DecidableEq

namespace CartItemSerializer

/-- `CartItemSerializer.create`: `get_or_create` keyed by
`(user, menu_item)`, with defaults `quantity` and
`unit_price = menu_item.price`; when the row already exists its
quantity is incremented and the row saved (unit price untouched).
`price` is the menu item's current price at call time. -/
def create (store : List CartItem) (user menu_item : Nat)
    (quantity : Nat) (price : Nat) : List CartItem :=
  if store.any (fun c => c.user == user && c.menu_item == menu_item) then
    store.map (fun c =>
      if c.user == user && c.menu_item == menu_item then
        { c with quantity := c.quantity + quantity }
      else c)
  else
    store ++ [⟨user, menu_item, quantity, price⟩]

end CartItemSerializer

/-! ## Orders -/

/-- A persisted `OrderItem` row (read-only in this scope). -/
structure OrderItem where
  id : Nat
  menu_item : Nat
  quantity : Nat
  unit_price : Nat
deriving DecidableEq

/-- Modelled from the spec: the `OrderItem.total_price` model property
(`models.py` is not in the reviewed source tree); spec §3 defines it
as "derived total price = quantity × unit price". -/
def OrderItem.total_price (oi : OrderItem) : Nat :=
  oi.unit_price * oi.quantity

/-- A persisted `Order` row. -/
structure Order where
  id : Nat
  user : Nat
  delivery_crew : Option Nat
  status : Nat
  total : Nat
  date : Nat
  items : List OrderItem
deriving DecidableEq

namespace OrderItemReadSerializer

/-- `OrderItemReadSerializer.get_total_price`: returns
`obj.total_price`. -/
def get_total_price (oi : OrderItem) : Nat :=
  oi.total_price

/-- The serialized order-item view: `Meta.fields` plus the
denormalized `dish` name and the `total_price` method field. -/
structure View where
  id : Nat
  menu_item : Nat
  dish : String
  quantity : Nat
  unit_price : Nat
  total_price : Nat
deriving DecidableEq

/-- Build the item view: `dish` is read from the referenced menu
item's name at view-build time; `total_price` comes from
`get_total_price`. -/
def to_view (menuName : Nat → String) (oi : OrderItem) : View :=
  ⟨oi.id, oi.menu_item, menuName oi.menu_item, oi.quantity,
    oi.unit_price, get_total_price oi⟩

end OrderItemReadSerializer

namespace OrderReadSerializer

/-- The serialized order view per `OrderReadSerializer.Meta.fields`. -/
structure View where
  id : Nat
  user : String
  delivery_crew : Option String
  status : Nat
  total : Nat
  date : Nat
  items : List OrderItemReadSerializer.View
deriving DecidableEq

/-- `OrderReadSerializer`: the owner is rendered as a username, the
crew via `get_delivery_crew` (`username if obj.delivery_crew else
None`), and each line item through `OrderItemReadSerializer`. -/
def to_view (username : Nat → String) (menuName : Nat → String)
    (o : Order) : View :=
  ⟨o.id, username o.user, o.delivery_crew.map username, o.status,
    o.total, o.date, o.items.map (OrderItemReadSerializer.to_view menuName)⟩

end OrderReadSerializer

/-! ## Role-scoped order updates

The two update serializers share Django REST Framework's
`ModelSerializer` machinery: only keys listed in `Meta.fields` are
deserialized (unknown payload keys are ignored, not rejected), each
present field is validated, and `update` assigns the validated fields
onto the instance.  The view layer is not in the reviewed source
tree; following spec §4.5 the requests are partial updates, so every
declared field is optional per request. -/

/-- A raw JSON-ish payload value. -/
inductive Value where
  | vstr (s : String)
  | vint (n : Nat)
  | vnull
deriving DecidableEq

/-- A request payload: association list of field name to value. -/
def Payload := List (String × Value)

/-- A validated (internal) field value for an order update. -/
inductive OrderField where
  | crew (v : Option Nat)
  | stat (n : Nat)
deriving DecidableEq

/-- Per-field deserialization.  `delivery_crew` is a
`SlugRelatedField(slug_field='username', allow_null=True)`: `null`
maps to an unassignment, a string is resolved against the user store.
`status` takes the raw enumeration value. -/
def validateOrderField (users : List (Nat × String)) (name : String)
    (v : Value) : Except String OrderField :=
  if name = "delivery_crew" then
    match v with
    | Value.vnull => Except.ok (OrderField.crew none)
    | Value.vstr s =>
        match users.find? (fun u => u.2 == s) with
        | some u => Except.ok (OrderField.crew (some u.1))
        | none => Except.error "Object with username does not exist."
    | Value.vint _ => Except.error "Invalid value for delivery_crew."
  else if name = "status" then
    match v with
    | Value.vint n => Except.ok (OrderField.stat n)
    | _ => Except.error "Invalid value for status."
  else Except.error "Unknown field."

/-- `to_internal_value`: walk the declared writable fields, pick the
payload entries present, validate each. -/
def to_internal_value (fields : List String)
    (users : List (Nat × String)) (payload : Payload) :
    Except String (List OrderField) :=
  fields.foldr
    (fun f acc => do
      let rest ← acc
      match payload.lookup f with
      | some v => do
          let iv ← validateOrderField users f v
          pure (iv :: rest)
      | none => pure rest)
    (Except.ok [])

/-- Assign one validated field onto the order instance. -/
def applyOrderField (o : Order) : OrderField → Order
  | OrderField.crew v => { o with delivery_crew := v }
  | OrderField.stat n => { o with status := n }

/-- Deserialize against the declared field list, then save: assign
every validated field onto the instance. -/
def serializerSave (fields : List String) (users : List (Nat × String))
    (o : Order) (payload : Payload) : Except String Order :=
  (to_internal_value fields users payload).map
    (fun ivs => ivs.foldl applyOrderField o)

/-- `ManagerOrderUpdateSerializer`: `Meta.fields =
['delivery_crew', 'status']`. -/
def managerOrderUpdate (users : List (Nat × String)) (o : Order)
    (payload : Payload) : Except String Order :=
  serializerSave ["delivery_crew", "status"] users o payload

/-- `DeliveryCrewOrderUpdateSerializer`: `Meta.fields = ['status']`. -/
def deliveryCrewOrderUpdate (users : List (Nat × String)) (o : Order)
    (payload : Payload) : Except String Order :=
  serializerSave ["status"] users o payload

/-! ## Declared serializer fields of `MenuItemSerializer`

Flags per field: `(name, read_only, write_only)`.  `id` is read-only
by `ModelSerializer` default; `category` and `is_item_of_the_day` are
declared `read_only=True`; `price_after_tax` is a
`SerializerMethodField` (read-only); `category_id` is declared
`write_only=True`. -/

/-- A serializer field declaration. -/
structure FieldSpec where
  name : String
  read_only : Bool
  write_only : Bool
deriving DecidableEq

namespace MenuItemSerializer

/-- The declared fields, in `Meta.fields` order. -/
def declaredFields : List FieldSpec :=
  [⟨"id", true, false⟩,
   ⟨"dish", false, false⟩,
   ⟨"price", false, false⟩,
   ⟨"price_after_tax", true, false⟩,
   ⟨"stock", false, false⟩,
   ⟨"category", true, false⟩,
   ⟨"category_id", false, true⟩,
   ⟨"is_item_of_the_day", true, false⟩]

/-- Field names present in the output representation:
`to_representation` iterates the readable fields, which excludes
`write_only` ones. -/
def outputFieldNames : List String :=
  (declaredFields.filter (fun f => !f.write_only)).map (fun f => f.name)

/-- Field names accepted on input: the writable fields, which
excludes `read_only` ones. -/
def inputFieldNames : List String :=
  (declaredFields.filter (fun f => !f.read_only)).map (fun f => f.name)

end MenuItemSerializer

/-! ## Theorems -/

/-- Helper for the cart-merge proof: rows that do not match the
`(user, menu_item)` key survive the merge untouched and still do not
match. -/
theorem cart_filter_map_nil (u m q : Nat) (store : List CartItem)
    (h : ∀ c ∈ store, (c.user == u && c.menu_item == m) = false) :
    ((store.map (fun c =>
        if c.user == u && c.menu_item == m then
          { c with quantity := c.quantity + q }
        else c)).filter
      (fun c => c.user == u && c.menu_item == m)) = [] := by
  induction store with
  | nil => rfl
  | cons hd tl ih =>
    have hhd := h hd (List.mem_cons_self _ _)
    simp only [List.map_cons, hhd, if_neg, Bool.false_eq_true,
      not_false_eq_true, List.filter_cons_of_neg]
    exact ih (fun c hc => h c (List.mem_cons_of_mem _ hc))

/-- C1: adding quantity `q1` and then `q2` for the same
`(user, menu item)` pair, starting from a cart holding no row for the
pair, yields exactly one `CartItem` for the pair, whose quantity is
`q1 + q2` and whose unit price is the menu price at the first add —
unchanged by the second add even when the price moved to `p2`. -/
theorem cart_add_additive_merge (store : List CartItem)
    (u m q1 q2 p1 p2 : Nat)
    (h : ∀ c ∈ store, (c.user == u && c.menu_item == m) = false) :
    ((CartItemSerializer.create
        (CartItemSerializer.create store u m q1 p1) u m q2 p2).filter
      (fun c => c.user == u && c.menu_item == m)) =
      [⟨u, m, q1 + q2, p1⟩] := by
  have hany : store.any (fun c => c.user == u && c.menu_item == m) = false := by
    rw [List.any_eq_false]
    intro c hc
    simp [h c hc]
  unfold CartItemSerializer.create
  rw [hany]
  simp only [Bool.false_eq_true, if_false, List.any_append, hany,
    List.any_cons, List.any_nil, beq_self_eq_true, Bool.and_self,
    Bool.true_or, Bool.or_true, if_true, List.map_append,
    List.filter_append]
  rw [cart_filter_map_nil u m q2 store h]
  simp

/-- Witness for C1 at a concrete cart: user 1 adds item 2 with
quantity 2 at price 1000, then quantity 3 while the price is 1200. -/
theorem cart_add_additive_merge_witness :
    (∀ c ∈ ([] : List CartItem), (c.user == 1 && c.menu_item == 2) = false) ∧
    ((CartItemSerializer.create
        (CartItemSerializer.create [] 1 2 2 1000) 1 2 3 1200).filter
      (fun c => c.user == 1 && c.menu_item == 2)) = [⟨1, 2, 2 + 3, 1000⟩] :=
  ⟨by decide, cart_add_additive_merge [] 1 2 2 3 1000 1200 (by decide)⟩

/-- Helper for the tax proof: rounding `10 x / 100` half-to-even
agrees with rounding `x / 10` half-to-even. -/
theorem roundHalfEven_ten (x : Nat) :
    roundHalfEven (10 * x) 100 = roundHalfEven x 10 := by
  unfold roundHalfEven
  split_ifs <;> omega

/-- C2: the claim is false as stated — `get_price_after_tax` does not
round half-up.  At price 2.15 the exact tax-inclusive value is 2.365;
the code (Python `Decimal.quantize` under the default
`ROUND_HALF_EVEN` context) yields 2.36, while round-half-up yields
2.37. -/
theorem price_after_tax_not_half_up :
    ¬(∀ p : Nat, 200 ≤ p →
      MenuItemSerializer.get_price_after_tax ⟨p, 2⟩ =
        ⟨roundHalfUp (11 * p) 10, 2⟩) := by
  intro h
  exact absurd (h 215 (by decide)) (by decide)

/-- C2 amended: for every base price `p ≥ 2.00` (in cents),
`price_after_tax(p)` equals `round(p * 1.10, 2)` under round-half-even
(banker's rounding), the mode the code actually uses. -/
theorem price_after_tax_half_even (p : Nat) (h : 200 ≤ p) :
    MenuItemSerializer.get_price_after_tax ⟨p, 2⟩ =
      ⟨roundHalfEven (11 * p) 10, 2⟩ := by
  unfold MenuItemSerializer.get_price_after_tax Dec.mul Dec.add Dec.quantize2
  norm_num
  rw [show p * 100 + p * 10 = 10 * (11 * p) by ring]
  exact roundHalfEven_ten (11 * p)

/-- Witness for C2 amended at price 10.00: the tax-inclusive price is
11.00 (the spec's end-to-end example). -/
theorem price_after_tax_half_even_witness :
    200 ≤ 1000 ∧
    MenuItemSerializer.get_price_after_tax ⟨1000, 2⟩ =
      ⟨roundHalfEven (11 * 1000) 10, 2⟩ :=
  ⟨by decide, price_after_tax_half_even 1000 (by decide)⟩

/-- C3: code bug — `Meta.extra_kwargs` is keyed by a field named
`rating`, but the serializer declares no such field (the field is
`score`), so the range constraints are silently dropped: a score of 6
passes validation, and indeed every score does. -/
theorem rating_score_range_not_enforced :
    RatingSerializer.validate_score 6 = true ∧
    (∀ s : Int, RatingSerializer.validate_score s = true) ∧
    RatingSerializer.fields.contains "rating" = false := by
  have hrange : RatingSerializer.fieldRange "score" = none := by decide
  refine ⟨?_, ?_, by decide⟩
  · rw [RatingSerializer.validate_score, hrange]
  · intro s
    rw [RatingSerializer.validate_score, hrange]

/-- C4: dish-name validation fails with the duplicate-name error
whenever some other record (not the instance under update) matches the
candidate case-insensitively, and succeeds when every
case-insensitive match is the instance under update itself. -/
theorem validate_dish_duplicate_check (store : List (Nat × String))
    (inst : Option Nat) (value : String) :
    ((∃ r ∈ store, iexact r.2 value = true ∧ inst ≠ some r.1) →
      MenuItemSerializer.validate_dish store inst value =
        Except.error "Ya existe un plato con ese nombre.") ∧
    ((∀ r ∈ store, iexact r.2 value = true → inst = some r.1) →
      MenuItemSerializer.validate_dish store inst value =
        Except.ok value) := by
  constructor
  · rintro ⟨r, hr, hmatch, hother⟩
    have hmem : r ∈ store.filter (fun r => iexact r.2 value) :=
      List.mem_filter.mpr ⟨hr, hmatch⟩
    cases inst with
    | none =>
      have hemp : (store.filter (fun r => iexact r.2 value)).isEmpty = false :=
        List.isEmpty_eq_false.mpr (List.ne_nil_of_mem hmem)
      simp [MenuItemSerializer.validate_dish, hemp]
    | some pk =>
      have hpk : (r.1 != pk) = true := by
        simp only [bne_iff_ne, ne_eq]
        intro hcontra
        exact hother (by rw [hcontra])
      have hmem2 : r ∈ (store.filter (fun r => iexact r.2 value)).filter
          (fun (r : Nat × String) => r.1 != pk) :=
        List.mem_filter.mpr ⟨hmem, hpk⟩
      have hemp : ((store.filter (fun r => iexact r.2 value)).filter
          (fun (r : Nat × String) => r.1 != pk)).isEmpty = false :=
        List.isEmpty_eq_false.mpr (List.ne_nil_of_mem hmem2)
      simp [MenuItemSerializer.validate_dish, hemp]
      exact ⟨r.1, r.2, hr, fun hc => hother (by rw [hc]), hmatch⟩
  · intro hall
    cases inst with
    | none =>
      have hnil : store.filter (fun r => iexact r.2 value) = [] := by
        rw [List.filter_eq_nil_iff]
        intro r hr
        intro hmatch
        exact Option.noConfusion (hall r hr hmatch)
      simp [MenuItemSerializer.validate_dish, hnil]
    | some pk =>
      have hnil : (store.filter (fun r => iexact r.2 value)).filter
          (fun (r : Nat × String) => r.1 != pk) = [] := by
        rw [List.filter_eq_nil_iff]
        intro r hr
        have hmatch := (List.mem_filter.mp hr).2
        have hinst := hall r (List.mem_filter.mp hr).1 hmatch
        simp only [bne_iff_ne, ne_eq, not_not]
        exact (Option.some.inj hinst).symm
      simp [MenuItemSerializer.validate_dish, hnil]

/-- Witness for C4: "PASTA" collides with the existing record
(1, "Pasta") on a create, and is accepted when record 1 itself is the
instance being updated. -/
theorem validate_dish_duplicate_check_witness :
    MenuItemSerializer.validate_dish [(1, "Pasta"), (2, "Pizza")] none "PASTA" =
      Except.error "Ya existe un plato con ese nombre." ∧
    MenuItemSerializer.validate_dish [(1, "Pasta")] (some 1) "PASTA" =
      Except.ok "PASTA" :=
  ⟨(validate_dish_duplicate_check [(1, "Pasta"), (2, "Pizza")] none "PASTA").1
      ⟨(1, "Pasta"), by decide, by decide, by decide⟩,
   (validate_dish_duplicate_check [(1, "Pasta")] (some 1) "PASTA").2
      (by decide)⟩

/-- C5 is false as stated: a handler-role (delivery crew) update whose
payload contains a `delivery_crew` field is not rejected.  The
serializer declares only `status`, and Django REST Framework ignores
payload keys outside the declared fields: the update succeeds, sets
the status, and leaves `delivery_crew` untouched. -/
theorem handler_update_not_rejected :
    deliveryCrewOrderUpdate [(7, "bob")] ⟨1, 2, none, 0, 100, 5, []⟩
      [("delivery_crew", Value.vstr "bob"), ("status", Value.vint 1)] =
      Except.ok ⟨1, 2, none, 1, 100, 5, []⟩ := by decide

/-- C5 amended: a `delivery_crew` entry in a handler-role update
payload is ignored rather than rejected — the update succeeds, only
the status field is applied, and `delivery_crew` (with every other
field) is unchanged. -/
theorem handler_update_ignores_delivery_crew
    (users : List (Nat × String)) (o : Order) (v : Value) (n : Nat) :
    deliveryCrewOrderUpdate users o
      [("delivery_crew", v), ("status", Value.vint n)] =
      Except.ok { o with status := n } := rfl

/-- C6: a manager-role update carrying only `status` succeeds and
changes nothing but the status (in particular `delivery_crew` is
unchanged); both fields are optional per request (the empty request
succeeds and changes nothing), and `delivery_crew` may be set to null
to unassign the crew. -/
theorem manager_update_status_frame
    (users : List (Nat × String)) (o : Order) (n : Nat) :
    managerOrderUpdate users o [("status", Value.vint n)] =
      Except.ok { o with status := n } ∧
    managerOrderUpdate users o [] = Except.ok o ∧
    managerOrderUpdate users o [("delivery_crew", Value.vnull)] =
      Except.ok { o with delivery_crew := none } :=
  ⟨rfl, rfl, rfl⟩

/-- C7: every item view in an assembled order view carries
`total_price = unit_price × quantity`, recomputed at view-build time
from the item's stored snapshot, for any order — in particular also
when the order's stored total diverges from the sum of item totals. -/
theorem order_item_total_recomputed (users menuName : Nat → String)
    (o : Order) (v : OrderItemReadSerializer.View)
    (hv : v ∈ (OrderReadSerializer.to_view users menuName o).items) :
    v.total_price = v.unit_price * v.quantity := by
  rcases List.mem_map.mp hv with ⟨oi, hoi, rfl⟩
  rfl

/-- Witness for C7: an order whose stored total (999) diverges from
its single item's total (3 × 500 = 1500); the view still shows the
recomputed 1500. -/
theorem order_item_total_recomputed_witness :
    (⟨1, 2, "Pasta", 3, 500, 1500⟩ : OrderItemReadSerializer.View) ∈
      (OrderReadSerializer.to_view (fun _ => "alice") (fun _ => "Pasta")
        ⟨1, 2, none, 0, 999, 5, [⟨1, 2, 3, 500⟩]⟩).items ∧
    (⟨1, 2, "Pasta", 3, 500, 1500⟩ : OrderItemReadSerializer.View).total_price =
      (⟨1, 2, "Pasta", 3, 500, 1500⟩ : OrderItemReadSerializer.View).unit_price *
        (⟨1, 2, "Pasta", 3, 500, 1500⟩ : OrderItemReadSerializer.View).quantity :=
  ⟨by decide,
   order_item_total_recomputed (fun _ => "alice") (fun _ => "Pasta")
     ⟨1, 2, none, 0, 999, 5, [⟨1, 2, 3, 500⟩]⟩
     ⟨1, 2, "Pasta", 3, 500, 1500⟩ (by decide)⟩

/-- C8: when the store holds no rating by user `u` for item `m`, the
uniqueness validator accepts the submission; once such a rating is
stored, a second submission for the same pair is rejected with the
declared message. -/
theorem rating_unique_per_pair (store : List Rating) (u m : Nat)
    (s : Int) (c : String)
    (h : ∀ r ∈ store, (r.user == u && r.menu_item == m) = false) :
    RatingSerializer.unique_together store u m = Except.ok () ∧
    RatingSerializer.unique_together (store ++ [⟨u, m, s, c⟩]) u m =
      Except.error "You have already rated this menu item." := by
  have hany : store.any (fun r => r.user == u && r.menu_item == m) = false := by
    rw [List.any_eq_false]
    intro r hr
    simp [h r hr]
  constructor
  · simp [RatingSerializer.unique_together, hany]
  · simp [RatingSerializer.unique_together]

/-- Witness for C8: user 3 rates item 4 into an empty store, then
submits again. -/
theorem rating_unique_per_pair_witness :
    (∀ r ∈ ([] : List Rating), (r.user == 3 && r.menu_item == 4) = false) ∧
    (RatingSerializer.unique_together [] 3 4 = Except.ok () ∧
      RatingSerializer.unique_together ([] ++ [⟨3, 4, 5, "tasty"⟩]) 3 4 =
        Except.error "You have already rated this menu item.") :=
  ⟨by decide, rating_unique_per_pair [] 3 4 5 "tasty" (by decide)⟩

/-- C9 is false as stated: `category_id` is declared
`write_only=True`, so it is absent from the output representation of
a menu item. -/
theorem menu_item_output_excludes_category_id :
    MenuItemSerializer.outputFieldNames.contains "category_id" = false ∧
    MenuItemSerializer.outputFieldNames ≠
      ["id", "dish", "price", "price_after_tax", "stock", "category",
        "category_id", "is_item_of_the_day"] := by decide

/-- C9 amended: the serialized menu item view contains exactly the
fields id, dish, price, price_after_tax, stock, category and
is_item_of_the_day; `category_id` is write-only, accepted on input
but not present in the output representation. -/
theorem menu_item_output_fields :
    MenuItemSerializer.outputFieldNames =
      ["id", "dish", "price", "price_after_tax", "stock", "category",
        "is_item_of_the_day"] ∧
    MenuItemSerializer.inputFieldNames.contains "category_id" = true := by
  decide

/-- C10: `MenuItemSerializer.validate_dish` and
`SingleItemSerializer.validate_dish` agree on every store state,
instance and candidate name: they accept and reject identically, with
the same error. -/
theorem dish_validators_equivalent (store : List (Nat × String))
    (inst : Option Nat) (value : String) :
    MenuItemSerializer.validate_dish store inst value =
      SingleItemSerializer.validate_dish store inst value := rfl

end LittleLemon
